import Mathlib

/-!
Formal model of the response-decomposition and platform-transformation layer
of the commerceai-pro services, embedded shallowly in Lean 4.

Strings are modelled as Lean `String` (a wrapper around `List Char`); most of
the work happens at the `List Char` level so that every definition reduces in
the kernel.  Python floats that the code builds from decimal digit tokens are
modelled as exact rationals (`ℚ`); Python's `int()` truncation toward zero is
`Int.tdiv`.  Python string operations (`find`, slicing with negative indices,
`split`, `lower`, `strip`, `capitalize`, membership `in`) are given faithful
counterparts below.  Fallible Python code (float parsing that can raise
`ValueError`, list indexing that can raise `IndexError`) is modelled with
`Option`, `none` standing for the raised exception.

Unicode classes beyond ASCII are not modelled: `isdigit` is ASCII digits,
`lower`/`upper` act per character via `Char.toLower`/`Char.toUpper`.
-/

/-- Python whitespace characters, as used by `str.split()` and `str.strip()`. -/
def pyIsSpace (c : Char) : Bool :=
  c = ' ' || c = '\t' || c = '\n' || c = '\r' || c = '\x0b' || c = '\x0c'

/-- Per-character lowering, modelling Python `str.lower()` on ASCII text. -/
def lowerL (l : List Char) : List Char := l.map Char.toLower

/-- `String` wrapper for `lowerL`, modelling `s.lower()`. -/
def strLower (s : String) : String := ⟨lowerL s.data⟩

/-- Python `needle in hay` substring test. -/
def occursIn (n : List Char) : List Char → Bool
  | [] => n.isEmpty
  | c :: t => n.isPrefixOf (c :: t) || occursIn n t

/-- Index of the first occurrence of `n` in the haystack, if any. -/
def findSub (n : List Char) : List Char → Option Nat
  | [] => if n.isEmpty then some 0 else none
  | c :: t => if n.isPrefixOf (c :: t) then some 0 else (findSub n t).map (· + 1)

/-- Python `hay.find(n)`: first index, or `-1` when absent. -/
def pyFind (n h : List Char) : Int :=
  match findSub n h with
  | some i => (i : Int)
  | none => -1

/-- Normalise a Python slice endpoint against a length: negative indices count
from the end, everything is clamped into `[0, len]`. -/
def normIdx (len : Nat) (i : Int) : Nat :=
  if i < 0 then ((len : Int) + i).toNat else min i.toNat len

/-- Python slice `l[a:b]` (with Python's negative-index semantics). -/
def pySliceL (l : List Char) (a b : Int) : List Char :=
  (l.take (normIdx l.length b)).drop (normIdx l.length a)

/-- Python slice `l[:m]`. -/
def pySliceTo (l : List Char) (m : Int) : List Char := l.take (normIdx l.length m)

/-- Accumulator pass behind `wsSplit`. -/
def wsSplitAux : List Char → List Char → List (List Char)
  | cur, [] => if cur.isEmpty then [] else [cur.reverse]
  | cur, c :: t =>
    if pyIsSpace c then
      if cur.isEmpty then wsSplitAux [] t else cur.reverse :: wsSplitAux [] t
    else wsSplitAux (c :: cur) t

/-- Python `s.split()` with no argument: split on whitespace runs, dropping
empty tokens. -/
def wsSplit (l : List Char) : List (List Char) := wsSplitAux [] l

/-- Fuelled worker behind `splitOnL`; the fuel is the haystack length, which
bounds the number of steps. -/
def splitOnLF (sep : List Char) : Nat → List Char → List Char → List (List Char)
  | _, cur, [] => [cur.reverse]
  | 0, cur, rest => [cur.reverse ++ rest]
  | fuel + 1, cur, c :: t =>
    if sep.isPrefixOf (c :: t) then
      cur.reverse :: splitOnLF sep fuel [] ((c :: t).drop sep.length)
    else splitOnLF sep fuel (c :: cur) t

/-- Python `s.split(sep)` for a non-empty separator: leftmost, non-overlapping,
keeping empty parts. -/
def splitOnL (sep l : List Char) : List (List Char) := splitOnLF sep l.length [] l

/-- Python `s.split(sep, 1)` when `sep` occurs: the parts before and after the
first occurrence. -/
def splitOnceL (h sep : List Char) : Option (List Char × List Char) :=
  match findSub sep h with
  | some i => some (h.take i, h.drop (i + sep.length))
  | none => none

/-- Python `s.strip()`. -/
def trimL (l : List Char) : List Char :=
  ((l.dropWhile pyIsSpace).reverse.dropWhile pyIsSpace).reverse

/-- Python `s.capitalize()`: first character uppercased, the rest lowered. -/
def capitalizeL : List Char → List Char
  | [] => []
  | c :: t => Char.toUpper c :: t.map Char.toLower

/-- Python `" ".join(l)`. -/
def joinSp (l : List String) : String :=
  match l with
  | [] => ""
  | x :: xs => xs.foldl (fun a b => a ++ " " ++ b) x

/-- The filter `s.replace('.', '').isdigit()` used on score tokens: non-empty
and entirely ASCII digits once the dots are removed. -/
def isNumericToken (tok : List Char) : Bool :=
  (!(tok.filter (fun c => c ≠ '.')).isEmpty) &&
    (tok.filter (fun c => c ≠ '.')).all Char.isDigit

/-- Decimal digit run to a natural number. -/
def digitsToNat (l : List Char) : Nat := l.foldl (fun a c => a * 10 + (c.toNat - 48)) 0

/-- Exact value of a decimal literal with integer part `ip` and fractional part
`fp`. -/
def decValue (ip fp : List Char) : ℚ :=
  (digitsToNat ip : ℚ) + (digitsToNat fp : ℚ) / (10 : ℚ) ^ fp.length

/-- Python `float(tok)` on a digits-and-dots token: defined when at most one
dot is present (otherwise `float` raises `ValueError`, modelled as `none`). -/
def pyFloat? (tok : List Char) : Option ℚ :=
  if tok.count '.' ≤ 1 ∧ isNumericToken tok = true then
    some (decValue (tok.takeWhile (fun c => c ≠ '.'))
      ((tok.dropWhile (fun c => c ≠ '.')).drop 1))
  else none

/-- Python `int()` applied to a rational: truncation toward zero. -/
def pyInt (q : ℚ) : ℤ := q.num.tdiv (q.den : ℤ)

/-!
Response Decomposer, analysis flows (`src/agents/analyse/main.py`).

`score_match = analysis_text.lower().find("score")`
`score_text  = analysis_text[score_match:score_match+30]`
`score       = float(next((s for s in score_text.split() if s.replace('.', '').isdigit()), default))`
-/

/-- The `score_text` window: 30 characters of the blob starting at the first
case-insensitive occurrence of `"score"` (`find` yields `-1` when absent). -/
def score_text (text : String) : List Char :=
  pySliceL text.data (pyFind "score".data (lowerL text.data))
    (pyFind "score".data (lowerL text.data) + 30)

/-- Score extraction: first numeric token of the window parsed as a float,
else the flow-specific default.  `none` models a `ValueError` from `float`. -/
def extract_score (text : String) (default : ℚ) : Option ℚ :=
  match (wsSplit (score_text text)).find? isNumericToken with
  | some tk => pyFloat? tk
  | none => some default

/-- One section's bullet lines: split on newlines, strip, drop empties and
lines restating the section label. -/
def section_items (sec : List Char) (label : List Char) : List (List Char) :=
  ((splitOnL ['\n'] sec).map trimL).filter
    (fun s => (!s.isEmpty) && !(label.isPrefixOf (lowerL s)))

/-- Strengths/weaknesses/recommendations from blank-line-separated sections at
indices 1, 2, 3.  `none` models the `IndexError` raised when an index is out
of range. -/
def extract_sections (text : String) :
    Option (List (List Char) × List (List Char) × List (List Char)) :=
  ((splitOnL ['\n', '\n'] text.data)[1]?).bind fun s1 =>
  ((splitOnL ['\n', '\n'] text.data)[2]?).bind fun s2 =>
  ((splitOnL ['\n', '\n'] text.data)[3]?).bind fun s3 =>
  some (section_items s1 "strength".data, section_items s2 "weakness".data,
    section_items s3 "recommendation".data)

/-- The structured analysis record assembled by both analysis flows. -/
structure AnalysisResult where
  score : ℚ
  strengths : List (List Char)
  weaknesses : List (List Char)
  recommendations : List (List Char)

/-- Parsing part of `analyze_product_listing`: default score 70, clamp to
`[0, 100]`, caps 3/3/5. -/
def analyze_product_listing (text : String) : Option AnalysisResult :=
  (extract_score text 70).bind fun score =>
  (extract_sections text).bind fun secs =>
  some { score := min (max score 0) 100, strengths := secs.1.take 3,
         weaknesses := secs.2.1.take 3, recommendations := secs.2.2.take 5 }

/-- Parsing part of `analyze_checkout_process`: default score 65, clamp to
`[0, 100]`, caps 3/3/5. -/
def analyze_checkout_process (text : String) : Option AnalysisResult :=
  (extract_score text 65).bind fun score =>
  (extract_sections text).bind fun secs =>
  some { score := min (max score 0) 100, strengths := secs.1.take 3,
         weaknesses := secs.2.1.take 3, recommendations := secs.2.2.take 5 }

/-!
Platform Transformer, content side (`src/agents/contenu/platform_integration.py`).

A content record is the dictionary handed to `transform_content_for_platform`;
fields the code reads through `dict.get` with a falsy default are modelled with
that default already in place (`""` for absent strings, `[]` for absent lists),
which matches Python truthiness checks on them.
-/

/-- The canonical content record. -/
structure ContentData where
  content : String
  title : String
  content_type : String
  meta_description : String
  keywords : List String
  hashtags : List String
  link : String
  media_urls : List String
  video_url : String
  business_name : String
  topic : String

/-- Platform-specific content payloads, one constructor per output shape. -/
inductive ContentPayload where
  | metaP (message : String) (platform : String) (link : Option String)
      (media : Option (List String))
  | twitterP (text : String) (media : Option (List String)) : ContentPayload
  | linkedinP (text : String) (visibility : String)
      (article_link : Option (String × String × String))
      (media : Option (List String))
  | tiktokP (caption : String) (video_url : Option String)
  | shopifyProduct (title : String) (body_html : String) (vendor : String)
      (product_type : String) (tags : List String)
  | shopifyArticle (title : String) (body_html : String) (author : String)
      (tags : List String) (summary_html : String)
  | defaultP (text : String) (title : String) (original_data : ContentData)

/-- `_transform_for_meta`: hashtags appended after a blank line; optional link
and media. -/
def transform_for_meta (specific_platform : String) (d : ContentData) : ContentPayload :=
  ContentPayload.metaP
    (if d.hashtags ≠ [] then d.content ++ "\n\n" ++ joinSp d.hashtags else d.content)
    specific_platform
    (if d.link ≠ "" then some d.link else none)
    (if d.media_urls ≠ [] then some d.media_urls else none)

/-- The content string after the Twitter 280-character budget check:
`content[:280 - len(hashtags) - 5] + "..."` when over budget. -/
def twitter_truncated_content (d : ContentData) : String :=
  if d.content.length + (joinSp d.hashtags).length + 2 > 280 then
    (⟨pySliceTo d.content.data ((280 : Int) - (joinSp d.hashtags).length - 5)⟩ : String)
      ++ "..."
  else d.content

/-- The `text` field of the Twitter payload: truncated content plus a newline
and the joined hashtags when hashtags are present. -/
def twitter_text (d : ContentData) : String :=
  if joinSp d.hashtags ≠ "" then
    twitter_truncated_content d ++ "\n" ++ joinSp d.hashtags
  else twitter_truncated_content d

/-- `_transform_for_twitter`. -/
def transform_for_twitter (d : ContentData) : ContentPayload :=
  ContentPayload.twitterP (twitter_text d)
    (if d.media_urls ≠ [] then some d.media_urls else none)

/-- `_transform_for_linkedin`. -/
def transform_for_linkedin (d : ContentData) : ContentPayload :=
  ContentPayload.linkedinP
    (if d.hashtags ≠ [] then d.content ++ "\n\n" ++ joinSp d.hashtags else d.content)
    "PUBLIC"
    (if d.link ≠ "" then some (d.link, d.title, d.meta_description) else none)
    (if d.media_urls ≠ [] then some d.media_urls else none)

/-- `_transform_for_tiktok`. -/
def transform_for_tiktok (d : ContentData) : ContentPayload :=
  ContentPayload.tiktokP
    (if d.hashtags ≠ [] then d.content ++ "\n" ++ joinSp d.hashtags else d.content)
    (if d.video_url ≠ "" then some d.video_url else none)

/-- `_transform_for_shopify`: product or article shape by `content_type`, else
the default payload. -/
def transform_for_shopify (d : ContentData) : ContentPayload :=
  if d.content_type = "product_description" then
    ContentPayload.shopifyProduct d.title d.content d.business_name d.topic d.keywords
  else if d.content_type = "blog_post" then
    ContentPayload.shopifyArticle d.title d.content d.business_name d.keywords
      d.meta_description
  else ContentPayload.defaultP d.content d.title d

/-- `transform_content_for_platform`: case-insensitive dispatch with a minimal
default payload for unknown platforms. -/
def transform_content_for_platform (platform : String) (d : ContentData) : ContentPayload :=
  if strLower platform ∈ ["facebook", "instagram", "meta"] then
    transform_for_meta (strLower platform) d
  else if strLower platform = "twitter" ∨ strLower platform = "x" then
    transform_for_twitter d
  else if strLower platform = "linkedin" then transform_for_linkedin d
  else if strLower platform = "tiktok" then transform_for_tiktok d
  else if strLower platform = "shopify" then transform_for_shopify d
  else ContentPayload.defaultP d.content d.title d

/-!
Platform Transformer, campaign side (`src/agents/publicite/platform_integration.py`).
-/

/-- A city entry inside the canonical locations mapping. -/
structure City where
  key : Option String
  name : Option String
  radius : Option Int

/-- The canonical `locations` mapping; `none` models an absent dictionary key. -/
structure LocationsData where
  countries : Option (List String)
  cities : Option (List City)

/-- The canonical `target_audience` mapping. -/
structure TargetAudience where
  age_min : Option Int
  age_max : Option Int
  gender : Option String
  locations : Option LocationsData
  interests : Option (List String)

/-- The empty `target_audience` default (`campaign_data.get("target_audience", {})`). -/
def emptyAudience : TargetAudience := ⟨none, none, none, none, none⟩

/-- The canonical campaign dictionary.  `status` is carried so that the
passthrough branch can be observed; the transform branches never read it. -/
structure CampaignData where
  name : Option String
  objective : Option String
  budget : Option ℚ
  target_audience : Option TargetAudience
  status : Option String

/-- A city in Meta Ads geo format. -/
structure MetaCity where
  key : Option String
  radius : Int
  distance_unit : String

/-- Meta Ads `geo_locations`. -/
structure GeoLocations where
  countries : Option (List String)
  cities : Option (List MetaCity)

/-- Meta Ads `targeting`. -/
structure MetaTargeting where
  age_min : Int
  age_max : Int
  genders : List Nat
  geo_locations : GeoLocations
  interests : List String

/-- Meta Ads campaign payload. -/
structure MetaCampaign where
  name : Option String
  objective : String
  status : String
  daily_budget : Int
  targeting : MetaTargeting

/-- Google Ads campaign payload (`campaign_budget` flattened to its single
`amount_micros` field). -/
structure GoogleCampaign where
  name : Option String
  advertising_channel_type : String
  status : String
  campaign_budget_amount_micros : Int

/-- `objective_map.get(objective, "CONVERSIONS")` for Meta Ads. -/
def meta_objective_value (s : String) : String :=
  (([("awareness", "BRAND_AWARENESS"), ("traffic", "TRAFFIC"),
     ("engagement", "ENGAGEMENT"), ("leads", "LEAD_GENERATION"),
     ("conversions", "CONVERSIONS"), ("sales", "SALES")] :
    List (String × String)).lookup s).getD "CONVERSIONS"

/-- `objective_map.get(objective, "DISPLAY")` for Google Ads channel types. -/
def google_channel_value (s : String) : String :=
  (([("awareness", "DISPLAY"), ("traffic", "SEARCH"), ("engagement", "DISPLAY"),
     ("leads", "SEARCH"), ("conversions", "SEARCH"), ("sales", "SHOPPING")] :
    List (String × String)).lookup s).getD "DISPLAY"

/-- `_map_gender`: `None`/`""`/`"all"`/anything unrecognised map to `[1, 2]`. -/
def map_gender (gender : Option String) : List Nat :=
  if gender.getD "" = "" ∨ gender = some "all" then [1, 2]
  else if gender = some "male" then [1]
  else if gender = some "female" then [2]
  else [1, 2]

/-- `_map_locations`: countries pass through; each city maps to
`{key or name, radius defaulting to 10, "mile"}`. -/
def map_locations (loc : LocationsData) : GeoLocations :=
  { countries := loc.countries,
    cities := loc.cities.map (fun cs => cs.map (fun c =>
      { key := match c.key with | some k => some k | none => c.name,
        radius := c.radius.getD 10, distance_unit := "mile" })) }

/-- `_transform_to_meta_format`. -/
def transform_to_meta_format (c : CampaignData) : MetaCampaign :=
  { name := c.name,
    objective := meta_objective_value (strLower (c.objective.getD "")),
    status := "PAUSED",
    daily_budget := pyInt ((c.budget.getD 0) * 100),
    targeting :=
      { age_min := (c.target_audience.getD emptyAudience).age_min.getD 18,
        age_max := (c.target_audience.getD emptyAudience).age_max.getD 65,
        genders := map_gender (c.target_audience.getD emptyAudience).gender,
        geo_locations :=
          map_locations ((c.target_audience.getD emptyAudience).locations.getD ⟨none, none⟩),
        interests := (c.target_audience.getD emptyAudience).interests.getD [] } }

/-- `_transform_to_google_format`. -/
def transform_to_google_format (c : CampaignData) : GoogleCampaign :=
  { name := c.name,
    advertising_channel_type := google_channel_value (strLower (c.objective.getD "")),
    status := "PAUSED",
    campaign_budget_amount_micros := pyInt ((c.budget.getD 0) * 1000000) }

/-- The campaign transform's possible outputs. -/
inductive CampaignPayload where
  | metaAds (c : MetaCampaign)
  | googleAds (c : GoogleCampaign)
  | passthrough (c : CampaignData)

/-- `transform_internal_to_platform_format`: meta/facebook and google are
recognised; everything else is returned unchanged. -/
def transform_internal_to_platform_format (platform : String) (c : CampaignData) :
    CampaignPayload :=
  if strLower platform = "meta" ∨ strLower platform = "facebook" then
    CampaignPayload.metaAds (transform_to_meta_format c)
  else if strLower platform = "google" then
    CampaignPayload.googleAds (transform_to_google_format c)
  else CampaignPayload.passthrough c

/-- The `status` field, if any, of a campaign payload. -/
def campaign_status : CampaignPayload → Option String
  | CampaignPayload.metaAds m => some m.status
  | CampaignPayload.googleAds g => some g.status
  | CampaignPayload.passthrough c => c.status

/-!
Response Decomposer, page-generation flow (`src/agents/pages/main.py`,
`generate_page_content`): fenced-block extraction and recombination.
-/

/-- The guard `marker in content and "```" in content.split(marker, 1)[1]`. -/
def fenced_cond (content : String) (marker : List Char) : Bool :=
  occursIn marker content.data &&
    (match splitOnceL content.data marker with
     | some pr => occursIn "```".data pr.2
     | none => false)

/-- `content.split(marker, 1)[1].split("```", 1)[0].strip()`, evaluated under
`fenced_cond`. -/
def fenced_val (content : String) (marker : List Char) : List Char :=
  match splitOnceL content.data marker with
  | some pr =>
    (match splitOnceL pr.2 "```".data with
     | some q => trimL q.1
     | none => trimL pr.2)
  | none => []

/-- One fenced segment: the value when the guard holds, else the empty string
the Python variable keeps. -/
def fenced_seg (content : String) (marker : List Char) : List Char :=
  if fenced_cond content marker then fenced_val content marker else []

/-- The `html_content` fenced segment. -/
def html_seg (content : String) : List Char := fenced_seg content "```html".data

/-- The `css_content` fenced segment. -/
def css_seg (content : String) : List Char := fenced_seg content "```css".data

/-- The `js_content` fenced segment: the ```javascript fence, else the ```js
fence. -/
def js_seg (content : String) : List Char :=
  if fenced_cond content "```javascript".data then fenced_val content "```javascript".data
  else fenced_seg content "```js".data

/-- `html_content` after the empty-fallback step: the whole blob when no html
fence was parsed. -/
def html1 (content : String) : List Char :=
  if (html_seg content).isEmpty then content.data else html_seg content

/-- `html_content` after the css-embedding step. -/
def html2 (content : String) : List Char :=
  if (!(css_seg content).isEmpty) && !(occursIn "<style>".data (html1 content)) then
    "<style>\n".data ++ css_seg content ++ "\n</style>\n".data ++ html1 content
  else html1 content

/-- `html_content` after the js-embedding step. -/
def html3 (content : String) : List Char :=
  if (!(js_seg content).isEmpty) && !(occursIn "<script>".data (html2 content)) then
    html2 content ++ "\n<script>\n".data ++ js_seg content ++ "\n</script>".data
  else html2 content

/-- The fixed text of the document skeleton up to the title. -/
def skeleton_head : String :=
  "<!DOCTYPE html>\n<html lang=\"en\">\n<head>\n    <meta charset=\"UTF-8\">\n    <meta name=\"viewport\" content=\"width=device-width, initial-scale=1.0\">\n    <title>"

/-- The minimal HTML5 document skeleton wrapped around `body`, with the title
synthesised from the business name and capitalised page type. -/
def doc_skeleton (business_name page_type : String) (body : List Char) : List Char :=
  skeleton_head.data
    ++ business_name.data ++ " - ".data ++ capitalizeL page_type.data
    ++ " Page</title>\n</head>\n<body>\n".data ++ body ++ "\n</body>\n</html>".data

/-- The final `html_content`: wrapped in the skeleton unless a doctype is
already present. -/
def final_html (content business_name page_type : String) : List Char :=
  if !(occursIn "<!DOCTYPE html>".data (html3 content)) then
    doc_skeleton business_name page_type (html3 content)
  else html3 content

/-- The `{html, css, js}` record returned by `generate_page_content`. -/
structure PageContent where
  html : List Char
  css : List Char
  js : List Char

/-- Parsing part of `generate_page_content`. -/
def generate_page_content (content business_name page_type : String) : PageContent :=
  ⟨final_html content business_name page_type, css_seg content, js_seg content⟩

/-!
Helper lemmas.
-/

/-- A failed substring test means `findSub` finds nothing. -/
theorem findSub_eq_none_of_occursIn_false {n : List Char} :
    ∀ {h : List Char}, occursIn n h = false → findSub n h = none := by
  intro h
  induction h with
  | nil =>
    intro hocc
    simp only [occursIn] at hocc
    simp [findSub, hocc]
  | cons c t ih =>
    intro hocc
    simp only [occursIn, Bool.or_eq_false_iff] at hocc
    simp [findSub, hocc.1, ih hocc.2]

/-- The Boolean substring test agrees with `List.IsInfix`. -/
theorem occursIn_iff_isInfix {n : List Char} :
    ∀ {h : List Char}, occursIn n h = true ↔ n <:+: h := by
  intro h
  induction h with
  | nil => simp [occursIn, List.isEmpty_iff, List.infix_nil]
  | cons c t ih =>
    simp [occursIn, List.infix_cons_iff, List.isPrefixOf_iff_prefix, ih]

/-- Negative form of `occursIn_iff_isInfix`. -/
theorem occursIn_eq_false_iff {n h : List Char} :
    occursIn n h = false ↔ ¬ n <:+: h := by
  rw [← occursIn_iff_isInfix]
  cases hb : occursIn n h <;> simp

/-- A prefix of an append is a prefix of the left part, or extends it into the
right part. -/
theorem prefix_append_cases {n a b : List Char} (h : n <+: a ++ b) :
    n <+: a ∨ ∃ r, r ≠ [] ∧ r <+: b ∧ n = a ++ r := by
  induction a generalizing n with
  | nil =>
    rcases eq_or_ne n [] with rfl | hne
    · exact Or.inl List.nil_prefix
    · exact Or.inr ⟨n, hne, by simpa using h, by simp⟩
  | cons x a' ih =>
    rcases eq_or_ne n [] with rfl | hne
    · exact Or.inl List.nil_prefix
    · obtain ⟨c, n', rfl⟩ := List.exists_cons_of_ne_nil hne
      rw [List.cons_append, List.cons_prefix_cons] at h
      obtain ⟨rfl, h'⟩ := h
      rcases ih h' with h'' | ⟨r, hr, hrb, rfl⟩
      · exact Or.inl (List.cons_prefix_cons.mpr ⟨rfl, h''⟩)
      · exact Or.inr ⟨r, hr, hrb, by simp⟩

/-- An infix of an append lies in the left part, in the right part, or spans
the junction as a non-empty suffix of the left glued to a non-empty prefix of
the right. -/
theorem infix_append_cases {n a b : List Char} (h : n <:+: a ++ b) :
    n <:+: a ∨ n <:+: b ∨
      ∃ a₁ b₁, a₁ ≠ [] ∧ b₁ ≠ [] ∧ a₁ <:+ a ∧ b₁ <+: b ∧ n = a₁ ++ b₁ := by
  induction a with
  | nil => exact Or.inr (Or.inl (by simpa using h))
  | cons x a' ih =>
    rw [List.cons_append, List.infix_cons_iff] at h
    rcases h with hp | hi
    · rcases eq_or_ne n [] with rfl | hne
      · exact Or.inl List.nil_infix
      · obtain ⟨c, n', rfl⟩ := List.exists_cons_of_ne_nil hne
        rw [List.cons_prefix_cons] at hp
        obtain ⟨rfl, h'⟩ := hp
        rcases prefix_append_cases h' with h'' | ⟨r, hrne, hrb, rfl⟩
        · exact Or.inl (List.cons_prefix_cons.mpr ⟨rfl, h''⟩).isInfix
        · exact Or.inr (Or.inr ⟨c :: a', r, by simp, hrne, List.suffix_refl _, hrb, by simp⟩)
    · rcases ih hi with h1 | h2 | ⟨a₁, b₁, h3, h4, h5, h6, rfl⟩
      · exact Or.inl (h1.trans ⟨[x], [], by simp⟩)
      · exact Or.inr (Or.inl h2)
      · exact Or.inr (Or.inr ⟨a₁, b₁, h3, h4, h5.trans ⟨[x], rfl⟩, h6, rfl⟩)

/-- A needle containing no newline cannot span an append whose junction is
marked by a newline on either side. -/
theorem not_infix_append_sep {n a b : List Char} (hmem : '\n' ∉ n)
    (hj : a.getLast? = some '\n' ∨ b.head? = some '\n')
    (ha : ¬ n <:+: a) (hb : ¬ n <:+: b) : ¬ n <:+: a ++ b := by
  intro h
  rcases infix_append_cases h with h1 | h2 | ⟨a₁, b₁, h3, h4, h5, h6, rfl⟩
  · exact ha h1
  · exact hb h2
  · rcases hj with hj | hj
    · obtain ⟨p, rfl⟩ := h5
      rw [List.getLast?_append_of_ne_nil p h3] at hj
      have hm : '\n' ∈ a₁ := List.mem_of_mem_getLast? (by simp [hj])
      exact hmem (List.mem_append.mpr (Or.inl hm))
    · obtain ⟨q, rfl⟩ := h6
      rw [List.head?_append_of_ne_nil b₁ h4] at hj
      have hm : '\n' ∈ b₁ := List.mem_of_mem_head? (by simp [hj])
      exact hmem (List.mem_append.mpr (Or.inr hm))

/-!
Claims.
-/

/-- C1: for both analysis flows, whenever a structured analysis record is
produced, its score lies in `[0, 100]` — the extracted or defaulted value is
clamped before being returned, whatever number appeared in the text. -/
theorem c1_score_clamped (text : String) (a : AnalysisResult)
    (h : analyze_product_listing text = some a ∨ analyze_checkout_process text = some a) :
    0 ≤ a.score ∧ a.score ≤ 100 := by
  have key : ∀ d : ℚ,
      ((extract_score text d).bind fun score =>
        (extract_sections text).bind fun secs =>
        some { score := min (max score 0) 100, strengths := secs.1.take 3,
               weaknesses := secs.2.1.take 3,
               recommendations := secs.2.2.take 5 : AnalysisResult }) = some a →
      0 ≤ a.score ∧ a.score ≤ 100 := by
    intro d hd
    rcases hs : extract_score text d with _ | s
    · rw [hs] at hd; simp at hd
    · rcases hsec : extract_sections text with _ | secs
      · rw [hs, hsec] at hd; simp at hd
      · rw [hs, hsec] at hd
        simp only [Option.some_bind, Option.some.injEq] at hd
        subst hd
        constructor
        · exact le_min (le_max_right s 0) (by norm_num)
        · exact min_le_right _ _
  rcases h with h | h
  · exact key 70 h
  · exact key 65 h

/-- Witness for C1 at the blob `"A score: 80\n\nB\n\nC\n\nD"`. -/
theorem c1_score_clamped_witness :
    0 ≤ min (max (decValue ['8', '0'] []) 0) 100 ∧
      min (max (decValue ['8', '0'] []) 0) 100 ≤ 100 :=
  c1_score_clamped "A score: 80\n\nB\n\nC\n\nD"
    ⟨min (max (decValue ['8', '0'] []) 0) 100, [['B']], [['C']], [['D']]⟩
    (Or.inl rfl)

/-- C2: when no whitespace-delimited token of the 30-character window after
the first case-insensitive occurrence of "score" is entirely numeric after
removing dots, the extraction silently returns exactly the flow default — 70
for product analysis and 65 for checkout analysis. -/
theorem c2_default_on_no_numeric_token (text : String)
    (h : ∀ tk ∈ wsSplit (score_text text), isNumericToken tk = false) :
    extract_score text 70 = some 70 ∧ extract_score text 65 = some 65 := by
  have hf : (wsSplit (score_text text)).find? isNumericToken = none :=
    List.find?_eq_none.mpr (fun x hx => by rw [h x hx]; simp)
  constructor <;> simp [extract_score, hf]

/-- Witness for C2 at a blob with no numeric token in its window. -/
theorem c2_default_on_no_numeric_token_witness :
    (∀ tk ∈ wsSplit (score_text "no digits at all here!"), isNumericToken tk = false) ∧
      extract_score "no digits at all here!" 70 = some 70 ∧
      extract_score "no digits at all here!" 65 = some 65 :=
  ⟨by decide, c2_default_on_no_numeric_token "no digits at all here!" (by decide)⟩

/-- C3: when the blob splits into fewer than 4 blank-line-separated sections,
the section extraction (and with it each analysis flow) aborts with the
modelled `IndexError` (`none`) instead of returning empty lists. -/
theorem c3_few_sections_raise (text : String)
    (h : (splitOnL ['\n', '\n'] text.data).length < 4) :
    extract_sections text = none ∧ analyze_product_listing text = none ∧
      analyze_checkout_process text = none := by
  have h3 : (splitOnL ['\n', '\n'] text.data)[3]? = none :=
    List.getElem?_eq_none (by omega)
  have hsec : extract_sections text = none := by
    rcases h1 : (splitOnL ['\n', '\n'] text.data)[1]? with _ | s1
    · simp [extract_sections, h1]
    · rcases h2 : (splitOnL ['\n', '\n'] text.data)[2]? with _ | s2
      · simp [extract_sections, h1, h2]
      · simp [extract_sections, h1, h2, h3]
  refine ⟨hsec, ?_, ?_⟩ <;>
    · first
      | (rcases hs : extract_score text 70 with _ | s <;>
          simp [analyze_product_listing, hs, hsec])
      | (rcases hs : extract_score text 65 with _ | s <;>
          simp [analyze_checkout_process, hs, hsec])

/-- Witness for C3 at the single-section blob `"hello"`. -/
theorem c3_few_sections_raise_witness :
    (splitOnL ['\n', '\n'] ("hello" : String).data).length < 4 ∧
      extract_sections "hello" = none ∧ analyze_product_listing "hello" = none ∧
      analyze_checkout_process "hello" = none :=
  ⟨by decide, c3_few_sections_raise "hello" (by decide)⟩

/-- C10: when "score" does not occur (case-insensitively) in the blob, the
failed `find` yields `-1` and the window is the slice `text[-1:29]`: every blob
of length at least 30 then yields the flow default, but some blob shorter than
30 characters has its final numeric token returned as the score instead. -/
theorem c10_absent_score_window :
    (∀ text : String, occursIn "score".data (lowerL text.data) = false →
      30 ≤ text.length →
      extract_score text 70 = some 70 ∧ extract_score text 65 = some 65) ∧
    (∃ text : String, text.length < 30 ∧
      occursIn "score".data (lowerL text.data) = false ∧
      ∃ tk, ((wsSplit text.data).filter isNumericToken).getLast? = some tk ∧
        extract_score text 70 = pyFloat? tk ∧ pyFloat? tk ≠ some 70) := by
  constructor
  · intro text hocc hlen
    have hf : findSub "score".data (lowerL text.data) = none :=
      findSub_eq_none_of_occursIn_false hocc
    have hm : pyFind "score".data (lowerL text.data) = -1 := by simp [pyFind, hf]
    have hL : 30 ≤ text.data.length := hlen
    have hwin : score_text text = [] := by
      rw [score_text, hm]
      have h29 : (-1 : Int) + 30 = 29 := by norm_num
      rw [h29]
      unfold pySliceL normIdx
      rw [if_pos (show (-1 : Int) < 0 by norm_num),
        if_neg (show ¬((29 : Int) < 0) by norm_num)]
      apply List.drop_eq_nil_of_le
      rw [List.length_take]
      omega
    have hnone : (wsSplit (score_text text)).find? isNumericToken = none := by
      rw [hwin]; rfl
    constructor <;> simp [extract_score, hnone]
  · refine ⟨"rating 9", by decide, by decide, ['9'], by decide, rfl, ?_⟩
    have he : pyFloat? ['9'] = some (decValue ['9'] []) := rfl
    rw [he]
    intro hEq
    have hv : decValue ['9'] [] = 70 := Option.some.inj hEq
    rw [show decValue ['9'] [] =
        (digitsToNat ['9'] : ℚ) + (digitsToNat [] : ℚ) / (10 : ℚ) ^ ([] : List Char).length
      from rfl] at hv
    rw [show digitsToNat ['9'] = 9 from rfl, show digitsToNat [] = 0 from rfl] at hv
    norm_num at hv

/-- Witness for C10's universal part at a 30-character blob without "score". -/
theorem c10_absent_score_window_witness :
    occursIn "score".data (lowerL ("this blob is long enough today" : String).data) = false ∧
      30 ≤ ("this blob is long enough today" : String).length ∧
      extract_score "this blob is long enough today" 70 = some 70 ∧
      extract_score "this blob is long enough today" 65 = some 65 :=
  ⟨by decide, by decide,
    c10_absent_score_window.1 "this blob is long enough today" (by decide) (by decide)⟩

/-- A constructed string's length is its character count. -/
theorem strMk_length (l : List Char) : (⟨l⟩ : String).length = l.length := rfl

set_option maxRecDepth 20000 in
/-- C4 counterexample: with empty content and a single 280-character hashtag,
the truncation budget `280 - len(hashtags) - 5` is negative, Python's negative
slice keeps nothing, and the assembled text is 284 characters — over the
280-character budget the claim asserts for every record. -/
theorem c4_counterexample :
    280 < (twitter_text
      { content := "", title := "", content_type := "", meta_description := "",
        keywords := [], hashtags := [⟨'#' :: List.replicate 279 'a'⟩], link := "",
        media_urls := [], video_url := "", business_name := "", topic := "" }).length := by
  decide

/-- C4 amended: whenever the joined hashtags are at most 275 characters (so
the truncation budget is non-negative), the Twitter transform's text — content
truncated and suffixed with an ellipsis when over budget, then a newline and
the hashtags when present — is at most 280 characters. -/
theorem c4_twitter_length_bounded (d : ContentData)
    (h : (joinSp d.hashtags).length ≤ 275) :
    (twitter_text d).length ≤ 280 := by
  have hsl : ∀ m : Int, 0 ≤ m → (pySliceTo d.content.data m).length ≤ m.toNat := by
    intro m hm
    unfold pySliceTo normIdx
    rw [List.length_take, if_neg (by omega)]
    omega
  unfold twitter_text
  by_cases hc : d.content.length + (joinSp d.hashtags).length + 2 > 280
  · have htr : (twitter_truncated_content d).length ≤ 278 - (joinSp d.hashtags).length := by
      unfold twitter_truncated_content
      rw [if_pos hc, String.length_append]
      have hv := hsl ((280 : Int) - (joinSp d.hashtags).length - 5) (by omega)
      have hmk : ((⟨pySliceTo d.content.data
          ((280 : Int) - (joinSp d.hashtags).length - 5)⟩ : String)).length =
          (pySliceTo d.content.data ((280 : Int) - (joinSp d.hashtags).length - 5)).length :=
        rfl
      have hdots : ("..." : String).length = 3 := rfl
      omega
    by_cases hh : joinSp d.hashtags = ""
    · rw [if_neg (not_not_intro hh)]
      omega
    · rw [if_pos hh, String.length_append, String.length_append]
      have hnl : ("\n" : String).length = 1 := rfl
      omega
  · have htr : (twitter_truncated_content d).length = d.content.length := by
      unfold twitter_truncated_content
      rw [if_neg hc]
    by_cases hh : joinSp d.hashtags = ""
    · rw [if_neg (not_not_intro hh)]
      omega
    · rw [if_pos hh, String.length_append, String.length_append]
      have hnl : ("\n" : String).length = 1 := rfl
      omega

set_option maxRecDepth 20000 in
/-- Witness for C4's amended bound at the claim's instance: 300 characters of
content and 20 characters of joined hashtags. -/
theorem c4_twitter_length_bounded_witness :
    (joinSp ["#aaaaaaaa", "#aaaaaaaaa"]).length ≤ 275 ∧
      (twitter_text
        { content := ⟨List.replicate 300 'b'⟩, title := "", content_type := "",
          meta_description := "", keywords := [],
          hashtags := ["#aaaaaaaa", "#aaaaaaaaa"], link := "", media_urls := [],
          video_url := "", business_name := "", topic := "" }).length ≤ 280 :=
  ⟨by decide,
    c4_twitter_length_bounded
      { content := ⟨List.replicate 300 'b'⟩, title := "", content_type := "",
        meta_description := "", keywords := [],
        hashtags := ["#aaaaaaaa", "#aaaaaaaaa"], link := "", media_urls := [],
        video_url := "", business_name := "", topic := "" } (by decide)⟩

/-- C5: budget unit conversion is exact truncation of the exact product — the
Meta Ads daily budget is `int(budget * 100)` (12.5 gives exactly 1250) and the
Google Ads amount is `int(budget * 1000000)` (3.0 gives exactly 3000000). -/
theorem c5_budget_unit_conversion :
    (∀ c : CampaignData,
      (transform_to_meta_format c).daily_budget = pyInt ((c.budget.getD 0) * 100)) ∧
    (∀ c : CampaignData,
      (transform_to_google_format c).campaign_budget_amount_micros =
        pyInt ((c.budget.getD 0) * 1000000)) ∧
    (∀ c : CampaignData, c.budget = some (25 / 2 : ℚ) →
      (transform_to_meta_format c).daily_budget = 1250) ∧
    (∀ c : CampaignData, c.budget = some 3 →
      (transform_to_google_format c).campaign_budget_amount_micros = 3000000) := by
  refine ⟨fun c => rfl, fun c => rfl, fun c hb => ?_, fun c hb => ?_⟩
  · show pyInt ((c.budget.getD 0) * 100) = 1250
    rw [hb]
    show pyInt ((25 / 2 : ℚ) * 100) = 1250
    rw [show ((25 / 2 : ℚ) * 100) = 1250 by norm_num]
    rfl
  · show pyInt ((c.budget.getD 0) * 1000000) = 3000000
    rw [hb]
    show pyInt ((3 : ℚ) * 1000000) = 3000000
    rw [show ((3 : ℚ) * 1000000) = 3000000 by norm_num]
    rfl

/-- Witness for C5 at budgets 12.5 and 3. -/
theorem c5_budget_unit_conversion_witness :
    (transform_to_meta_format ⟨none, none, some (25 / 2 : ℚ), none, none⟩).daily_budget
        = 1250 ∧
      (transform_to_google_format
          ⟨none, none, some (3 : ℚ), none, none⟩).campaign_budget_amount_micros
        = 3000000 :=
  ⟨c5_budget_unit_conversion.2.2.1 ⟨none, none, some (25 / 2 : ℚ), none, none⟩ rfl,
    c5_budget_unit_conversion.2.2.2 ⟨none, none, some (3 : ℚ), none, none⟩ rfl⟩

/-- C6: the Meta Ads gender mapping sends "male" to `[1]`, "female" to `[2]`,
and "all", an absent value, or anything else to `[1, 2]`. -/
theorem c6_gender_mapping :
    map_gender (some "male") = [1] ∧ map_gender (some "female") = [2] ∧
    map_gender (some "all") = [1, 2] ∧ map_gender none = [1, 2] ∧
    (∀ s : String, s ≠ "male" → s ≠ "female" → map_gender (some s) = [1, 2]) := by
  refine ⟨by decide, by decide, by decide, by decide, ?_⟩
  intro s h1 h2
  unfold map_gender
  split_ifs with g1 g2 g3
  · rfl
  · exact absurd (Option.some.inj g2) h1
  · exact absurd (Option.some.inj g3) h2
  · rfl

/-- Witness for C6's catch-all branch at the unrecognised value "custom". -/
theorem c6_gender_mapping_witness :
    ("custom" : String) ≠ "male" ∧ ("custom" : String) ≠ "female" ∧
      map_gender (some "custom") = [1, 2] :=
  ⟨by decide, by decide, c6_gender_mapping.2.2.2.2 "custom" (by decide) (by decide)⟩

/-- C7 counterexample: for the unrecognised platform "tiktok" the campaign is
passed through unchanged, so its status is whatever the input carried — not
"PAUSED" as the claim asserts for every platform name. -/
theorem c7_counterexample :
    transform_internal_to_platform_format "tiktok"
        ⟨some "Summer", some "traffic", some 40, none, some "ACTIVE"⟩ =
      CampaignPayload.passthrough
        ⟨some "Summer", some "traffic", some 40, none, some "ACTIVE"⟩ ∧
    campaign_status (transform_internal_to_platform_format "tiktok"
        ⟨some "Summer", some "traffic", some 40, none, some "ACTIVE"⟩) ≠
      some "PAUSED" := by
  constructor
  · rfl
  · intro hcontra
    have h2 : (some "ACTIVE" : Option String) = some "PAUSED" := hcontra
    exact absurd h2 (by decide)

/-- C7 amended: for every platform routed to a campaign transform — lowercase
form "meta", "facebook" or "google" — the produced campaign's status is
"PAUSED". -/
theorem c7_recognized_platforms_paused (platform : String) (c : CampaignData)
    (h : strLower platform ∈ (["meta", "facebook", "google"] : List String)) :
    campaign_status (transform_internal_to_platform_format platform c) = some "PAUSED" := by
  have h' : strLower platform = "meta" ∨ strLower platform = "facebook" ∨
      strLower platform = "google" := by simpa using h
  rcases h' with h' | h' | h' <;>
    simp [transform_internal_to_platform_format, h', campaign_status,
      transform_to_meta_format, transform_to_google_format]

/-- Witness for C7's amended claim at the platform "Meta". -/
theorem c7_recognized_platforms_paused_witness :
    strLower "Meta" ∈ (["meta", "facebook", "google"] : List String) ∧
      campaign_status (transform_internal_to_platform_format "Meta"
        ⟨none, none, none, none, none⟩) = some "PAUSED" :=
  ⟨by decide,
    c7_recognized_platforms_paused "Meta" ⟨none, none, none, none, none⟩ (by decide)⟩

/-- C8: for every platform name outside the recognised sets, neither transform
raises: the content transform returns the minimal default payload (content as
text, the title, and the original record), and the campaign transform returns
the campaign unchanged. -/
theorem c8_unknown_platform_defaults (platform : String) (d : ContentData)
    (c : CampaignData)
    (h : strLower platform ∉ (["facebook", "instagram", "meta", "twitter", "x",
      "linkedin", "tiktok", "shopify", "google"] : List String)) :
    transform_content_for_platform platform d =
        ContentPayload.defaultP d.content d.title d ∧
      transform_internal_to_platform_format platform c = CampaignPayload.passthrough c := by
  have h' : strLower platform ≠ "facebook" ∧ strLower platform ≠ "instagram" ∧
      strLower platform ≠ "meta" ∧ strLower platform ≠ "twitter" ∧
      strLower platform ≠ "x" ∧ strLower platform ≠ "linkedin" ∧
      strLower platform ≠ "tiktok" ∧ strLower platform ≠ "shopify" ∧
      strLower platform ≠ "google" := by simpa [not_or] using h
  obtain ⟨h1, h2, h3, h4, h5, h6, h7, h8, h9⟩ := h'
  constructor
  · simp [transform_content_for_platform, h1, h2, h3, h4, h5, h6, h7, h8]
  · simp [transform_internal_to_platform_format, h1, h3, h9]

/-- Witness for C8 at the unknown platform "myspace". -/
theorem c8_unknown_platform_defaults_witness :
    strLower "myspace" ∉ (["facebook", "instagram", "meta", "twitter", "x",
        "linkedin", "tiktok", "shopify", "google"] : List String) ∧
      transform_content_for_platform "myspace"
          ⟨"body", "headline", "", "", [], [], "", [], "", "", ""⟩ =
        ContentPayload.defaultP "body" "headline"
          ⟨"body", "headline", "", "", [], [], "", [], "", "", ""⟩ ∧
      transform_internal_to_platform_format "myspace" ⟨none, none, none, none, none⟩ =
        CampaignPayload.passthrough ⟨none, none, none, none, none⟩ :=
  ⟨by decide,
    c8_unknown_platform_defaults "myspace"
      ⟨"body", "headline", "", "", [], [], "", [], "", "", ""⟩
      ⟨none, none, none, none, none⟩ (by decide)⟩

/-- Extending an infix on the left preserves it. -/
theorem infix_append_left (a : List Char) {n rest : List Char} (h : n <:+: rest) :
    n <:+: a ++ rest :=
  h.trans ⟨a, [], by simp⟩

/-- Bool form of the prefix order, for `startswith`-style conclusions. -/
theorem isPrefixOf_eq_true_of_IsPrefix {a b : List Char} (h : a <+: b) :
    a.isPrefixOf b = true :=
  List.isPrefixOf_iff_prefix.mpr h

set_option maxRecDepth 20000 in
/-- C9 counterexample: a blob whose three fenced blocks are present and whose
html segment is clean, but whose css segment contains a doctype declaration;
the recombined document then skips the skeleton wrap and does not start with a
doctype, contradicting the claim as stated. -/
theorem c9_counterexample :
    html_seg "```html\n<p>hi</p>\n```\n```css\n<!DOCTYPE html>\n```\n```javascript\nvar x\n```"
        = "<p>hi</p>".data ∧
      css_seg "```html\n<p>hi</p>\n```\n```css\n<!DOCTYPE html>\n```\n```javascript\nvar x\n```"
        = "<!DOCTYPE html>".data ∧
      js_seg "```html\n<p>hi</p>\n```\n```css\n<!DOCTYPE html>\n```\n```javascript\nvar x\n```"
        = "var x".data ∧
      occursIn "<style>".data
        (html_seg "```html\n<p>hi</p>\n```\n```css\n<!DOCTYPE html>\n```\n```javascript\nvar x\n```")
        = false ∧
      occursIn "<script>".data
        (html_seg "```html\n<p>hi</p>\n```\n```css\n<!DOCTYPE html>\n```\n```javascript\nvar x\n```")
        = false ∧
      occursIn "<!DOCTYPE html>".data
        (html_seg "```html\n<p>hi</p>\n```\n```css\n<!DOCTYPE html>\n```\n```javascript\nvar x\n```")
        = false ∧
      "<!DOCTYPE html>".data.isPrefixOf
        (final_html "```html\n<p>hi</p>\n```\n```css\n<!DOCTYPE html>\n```\n```javascript\nvar x\n```"
          "Acme" "landing")
        = false := by
  decide

/-- C9 amended: for every blob whose three fenced segments are non-empty, whose
html segment contains no style block, script block or doctype, whose css
segment contains no script block or doctype, and whose js segment contains no
doctype, the recombined document contains a style block wrapping the css and a
script block wrapping the js and starts with a doctype declaration; moreover
for every blob the html output is non-empty. -/
theorem c9_roundtrip_and_nonempty :
    (∀ content business_name page_type : String,
      html_seg content ≠ [] → css_seg content ≠ [] → js_seg content ≠ [] →
      occursIn "<style>".data (html_seg content) = false →
      occursIn "<script>".data (html_seg content) = false →
      occursIn "<!DOCTYPE html>".data (html_seg content) = false →
      occursIn "<script>".data (css_seg content) = false →
      occursIn "<!DOCTYPE html>".data (css_seg content) = false →
      occursIn "<!DOCTYPE html>".data (js_seg content) = false →
      occursIn ("<style>\n".data ++ css_seg content ++ "\n</style>".data)
          (final_html content business_name page_type) = true ∧
        occursIn ("<script>\n".data ++ js_seg content ++ "\n</script>".data)
          (final_html content business_name page_type) = true ∧
        "<!DOCTYPE html>".data.isPrefixOf
          (final_html content business_name page_type) = true) ∧
    (∀ content business_name page_type : String,
      final_html content business_name page_type ≠ []) := by
  constructor
  · intro content bn pt hh hc hj hs1 hs2 hs3 hs4 hs5 hs6
    have e1 : html1 content = html_seg content := by
      unfold html1
      rw [if_neg (show ¬((html_seg content).isEmpty = true) by
        simp only [List.isEmpty_iff]; exact hh)]
    have e2 : html2 content =
        "<style>\n".data ++ (css_seg content ++ ("\n</style>\n".data ++ html_seg content)) := by
      unfold html2
      rw [e1, if_pos (show ((!(css_seg content).isEmpty) &&
          !(occursIn "<style>".data (html_seg content))) = true by
        rw [hs1]; simp [List.isEmpty_iff, hc])]
      simp [List.append_assoc]
    have hscript2 : occursIn "<script>".data (html2 content) = false := by
      rw [e2, occursIn_eq_false_iff]
      refine not_infix_append_sep (by decide) (Or.inl (by decide))
        (occursIn_eq_false_iff.mp (by decide)) ?_
      refine not_infix_append_sep (by decide) (Or.inr (by rfl))
        (occursIn_eq_false_iff.mp hs4) ?_
      refine not_infix_append_sep (by decide) (Or.inl (by decide))
        (occursIn_eq_false_iff.mp (by decide)) ?_
      exact occursIn_eq_false_iff.mp hs2
    have e3 : html3 content =
        html2 content ++ ("\n<script>\n".data ++ (js_seg content ++ "\n</script>".data)) := by
      unfold html3
      rw [if_pos (show ((!(js_seg content).isEmpty) &&
          !(occursIn "<script>".data (html2 content))) = true by
        rw [hscript2]; simp [List.isEmpty_iff, hj])]
      simp [List.append_assoc]
    have hdoc2 : occursIn "<!DOCTYPE html>".data (html2 content) = false := by
      rw [e2, occursIn_eq_false_iff]
      refine not_infix_append_sep (by decide) (Or.inl (by decide))
        (occursIn_eq_false_iff.mp (by decide)) ?_
      refine not_infix_append_sep (by decide) (Or.inr (by rfl))
        (occursIn_eq_false_iff.mp hs5) ?_
      refine not_infix_append_sep (by decide) (Or.inl (by decide))
        (occursIn_eq_false_iff.mp (by decide)) ?_
      exact occursIn_eq_false_iff.mp hs3
    have hdoc3 : occursIn "<!DOCTYPE html>".data (html3 content) = false := by
      rw [e3, occursIn_eq_false_iff]
      refine not_infix_append_sep (by decide) (Or.inr (by rfl))
        (occursIn_eq_false_iff.mp hdoc2) ?_
      refine not_infix_append_sep (by decide) (Or.inl (by decide))
        (occursIn_eq_false_iff.mp (by decide)) ?_
      refine not_infix_append_sep (by decide) (Or.inr (by rfl))
        (occursIn_eq_false_iff.mp hs6) ?_
      exact occursIn_eq_false_iff.mp (by decide)
    have e4 : final_html content bn pt = doc_skeleton bn pt (html3 content) := by
      unfold final_html
      rw [if_pos (show (!(occursIn "<!DOCTYPE html>".data (html3 content))) = true by
        rw [hdoc3]; rfl)]
    have hbody : html3 content <:+: doc_skeleton bn pt (html3 content) := by
      refine ⟨skeleton_head.data ++ bn.data ++ " - ".data ++ capitalizeL pt.data ++
        " Page</title>\n</head>\n<body>\n".data, "\n</body>\n</html>".data, ?_⟩
      simp [doc_skeleton, List.append_assoc]
    have h23 : html2 content <:+: html3 content := by
      rw [e3]; exact (List.prefix_append _ _).isInfix
    refine ⟨?_, ?_, ?_⟩
    · rw [e4, occursIn_iff_isInfix]
      have hstyle : ("<style>\n".data ++ css_seg content ++ "\n</style>".data) <+:
          html2 content := by
        rw [e2]
        refine ⟨['\n'] ++ html_seg content, ?_⟩
        rw [show ("\n</style>\n" : String).data = "\n</style>".data ++ ['\n'] by decide]
        simp [List.append_assoc]
      exact (hstyle.isInfix.trans h23).trans hbody
    · rw [e4, occursIn_iff_isInfix]
      have hscript : ("<script>\n".data ++ js_seg content ++ "\n</script>".data) <:+
          html3 content := by
        rw [e3]
        refine ⟨html2 content ++ ['\n'], ?_⟩
        rw [show ("\n<script>\n" : String).data = ['\n'] ++ "<script>\n".data by decide]
        simp [List.append_assoc]
      exact hscript.isInfix.trans hbody
    · rw [e4]
      apply isPrefixOf_eq_true_of_IsPrefix
      unfold doc_skeleton
      have hp : "<!DOCTYPE html>".data <+: skeleton_head.data := by decide
      exact (((((hp.trans (List.prefix_append _ _)).trans
        (List.prefix_append _ _)).trans (List.prefix_append _ _)).trans
        (List.prefix_append _ _)).trans (List.prefix_append _ _)).trans
        (List.prefix_append _ _)
  · intro content bn pt
    unfold final_html
    by_cases hd : occursIn "<!DOCTYPE html>".data (html3 content) = true
    · rw [if_neg (show ¬((!(occursIn "<!DOCTYPE html>".data (html3 content))) = true) by
        rw [hd]; simp)]
      intro hnil
      have hlen := (occursIn_iff_isInfix.mp hd).length_le
      rw [hnil] at hlen
      exact absurd hlen (by decide)
    · have hd' : occursIn "<!DOCTYPE html>".data (html3 content) = false := by
        cases hvx : occursIn "<!DOCTYPE html>".data (html3 content)
        · rfl
        · exact absurd hvx hd
      rw [if_pos (show (!(occursIn "<!DOCTYPE html>".data (html3 content))) = true by
        rw [hd']; rfl)]
      unfold doc_skeleton
      intro hnil
      exact absurd (List.append_eq_nil.mp hnil).2 (by decide)

set_option maxRecDepth 20000 in
/-- Witness for C9's amended round-trip at a well-behaved three-fence blob. -/
theorem c9_roundtrip_and_nonempty_witness :
    html_seg "```html\n<p>ok</p>\n```\n```css\nh1 color: navy\n```\n```javascript\nlet x = 1\n```"
        ≠ [] ∧
      css_seg "```html\n<p>ok</p>\n```\n```css\nh1 color: navy\n```\n```javascript\nlet x = 1\n```"
        ≠ [] ∧
      js_seg "```html\n<p>ok</p>\n```\n```css\nh1 color: navy\n```\n```javascript\nlet x = 1\n```"
        ≠ [] ∧
      (occursIn ("<style>\n".data ++
          css_seg "```html\n<p>ok</p>\n```\n```css\nh1 color: navy\n```\n```javascript\nlet x = 1\n```"
          ++ "\n</style>".data)
        (final_html "```html\n<p>ok</p>\n```\n```css\nh1 color: navy\n```\n```javascript\nlet x = 1\n```"
          "Acme" "landing") = true ∧
      occursIn ("<script>\n".data ++
          js_seg "```html\n<p>ok</p>\n```\n```css\nh1 color: navy\n```\n```javascript\nlet x = 1\n```"
          ++ "\n</script>".data)
        (final_html "```html\n<p>ok</p>\n```\n```css\nh1 color: navy\n```\n```javascript\nlet x = 1\n```"
          "Acme" "landing") = true ∧
      "<!DOCTYPE html>".data.isPrefixOf
        (final_html "```html\n<p>ok</p>\n```\n```css\nh1 color: navy\n```\n```javascript\nlet x = 1\n```"
          "Acme" "landing") = true) :=
  ⟨by decide, by decide, by decide,
    c9_roundtrip_and_nonempty.1
      "```html\n<p>ok</p>\n```\n```css\nh1 color: navy\n```\n```javascript\nlet x = 1\n```"
      "Acme" "landing" (by decide) (by decide) (by decide) (by decide) (by decide)
      (by decide) (by decide) (by decide) (by decide)⟩
